import Mathlib

/-!
Verification development for the stateful alert lifecycle engine of a
multi-chain risk-monitoring service. The Go sources are shallowly embedded:
`float64` metric values become `ℚ`, instants and durations become `Int`
(in seconds), map state becomes an association list with explicit lookup
and update, and outbound notification I/O becomes an explicit environment
recording whether each sink accepts a message. Observations are processed
by a pure `Observe` function returning the success flag, the updated state
map and the list of attempted sink deliveries.
-/

namespace OracleRepo

/-- Severity levels for alerts (`alerts/manager.go`). -/
inductive Severity where
  | ok
  | warning
  | critical
deriving DecidableEq, Repr

/-- Numeric ordering of severities (`severityLevel` in `alerts/manager.go`). -/
def severityLevel : Severity → Nat
  | .ok => 0
  | .warning => 1
  | .critical => 2

/-- AlertKey uniquely identifies an alert instance (`alerts/manager.go`). -/
structure AlertKey where
  job : String
  entity : String
  metric : String
deriving DecidableEq, Repr

/-- AlertState tracks the current state of an alert (`alerts/manager.go`).
Times are instants in seconds; `lastValue` is the metric at the last send. -/
structure AlertState where
  severity : Severity
  lastSent : Int
  firstTriggered : Int
  lastValue : ℚ
  lastMessage : String
  consecutiveOK : Int
deriving DecidableEq, Repr

/-- Dynamic cooldown entry: a value threshold with the cooldown that applies
at or above it (`alerts/manager.go`). -/
structure DynamicCooldown where
  threshold : ℚ
  cooldown : Int
deriving DecidableEq, Repr

/-- AlertPolicy defines the behaviour for a specific alert type
(`alerts/manager.go`). Durations are in seconds. -/
structure AlertPolicy where
  minValueChange : ℚ
  cooldownWarning : Int
  cooldownCritical : Int
  dynamicCooldowns : List DynamicCooldown
  reminderInterval : Int
  triggerThreshold : ℚ
  consecutiveOKRequired : Int
deriving DecidableEq, Repr

/-- The hard-coded default policy used when no policy is registered for a
key (`evaluateObservation` in `alerts/manager.go`). -/
def defaultPolicy : AlertPolicy :=
  { minValueChange := 10
    cooldownWarning := 15 * 60
    cooldownCritical := 5 * 60
    dynamicCooldowns := []
    reminderInterval := 60 * 60
    triggerThreshold := 0
    consecutiveOKRequired := 2 }

/-- The manager's state map, embedded as an association list. -/
abbrev AlertStates := List (AlertKey × AlertState)

/-- Go map read `m.states[key]`. -/
def findState : AlertStates → AlertKey → Option AlertState
  | [], _ => none
  | (k', s) :: rest, k => if k' = k then some s else findState rest k

/-- Go map write `m.states[key] = s` (also models the in-place mutation of
the struct a stored pointer refers to). -/
def setState : AlertStates → AlertKey → AlertState → AlertStates
  | [], k, s => [(k, s)]
  | (k', s') :: rest, k, s =>
      if k' = k then (k, s) :: rest else (k', s') :: setState rest k s

/-- Go map delete `delete(m.states, key)`. -/
def delState : AlertStates → AlertKey → AlertStates
  | [], _ => []
  | (k', s') :: rest, k =>
      if k' = k then delState rest k else (k', s') :: delState rest k

/-- Policy lookup keyed by the string `job:metric`, falling back to the
default policy (`evaluateObservation` in `alerts/manager.go`). -/
def findPolicy (policies : List (String × AlertPolicy)) (job metric : String) :
    AlertPolicy :=
  match policies.lookup (job ++ ":" ++ metric) with
  | some p => p
  | none => defaultPolicy

/-- Title lookup from the fixed metric-name map with uppercase fallback
(`getAlertTitle` in `alerts/manager.go`). -/
def getAlertTitle (metric : String) : String :=
  match metric with
  | "price_deviation_stable" => "STABLECOIN DEPEG ALERT"
  | "price_deviation_volatile" => "ORACLE PRICE DEVIATION"
  | "system_health" => "ORACLE SYSTEM HEALTH"
  | "data_staleness" => "DATA STALE"
  | "token_error" => "TOKEN PRICE ERROR"
  | "position_risk" => "LOW HEALTH FACTOR POSITION"
  | "risky_count_spike" => "RISKY POSITIONS SPIKE"
  | "avg_hf_drop" => "AVERAGE HEALTH FACTOR DROP"
  | "withdrawal_spike" => "WITHDRAWAL SPIKE ALERT"
  | "borrow_spike" => "BORROW SPIKE ALERT"
  | "whale_supply" => "WHALE POSITION ALERT"
  | "borrow_top10" => "BORROW CONCENTRATION - TOP 10"
  | "borrow_single" => "BORROW CONCENTRATION - SINGLE WALLET"
  | m => (m.replace "_" " ").toUpper

/-- New-incident message (`formatNewIncidentMessage` in `alerts/manager.go`). -/
def formatNewIncidentMessage (key : AlertKey) (_severity : Severity) (_value : ℚ)
    (_summary details : String) : String :=
  "🚨 " ++ getAlertTitle key.metric ++ "\n\n" ++ details

/-- Escalation message (`formatEscalationMessage` in `alerts/manager.go`). -/
def formatEscalationMessage (key : AlertKey) (_state : AlertState)
    (_newSeverity : Severity) (_value : ℚ) (_summary details : String) : String :=
  "🚨 " ++ getAlertTitle key.metric ++ "\n\n" ++ details

/-- De-escalation message (`formatDeescalationMessage` in `alerts/manager.go`). -/
def formatDeescalationMessage (key : AlertKey) (_state : AlertState)
    (_newSeverity : Severity) (_value : ℚ) (_summary details : String) : String :=
  "✅ " ++ getAlertTitle key.metric ++ "\n\n" ++ details

/-- Same-severity update message (`formatUpdateMessage` in `alerts/manager.go`). -/
def formatUpdateMessage (key : AlertKey) (_state : AlertState)
    (_severity : Severity) (_value : ℚ) (_summary details : String) : String :=
  "🚨 " ++ getAlertTitle key.metric ++ "\n\n" ++ details

/-- The decision record produced by `evaluateObservation`
(`alertAction` in `alerts/manager.go`). -/
structure AlertAction where
  shouldSend : Bool
  message : String
  isBusinessAlert : Bool
  slackMessage : String
  newState : Option AlertState
  deleteState : Bool
deriving DecidableEq, Repr

/-- The zero-valued action `alertAction{}`. -/
def noAction : AlertAction :=
  { shouldSend := false, message := "", isBusinessAlert := false
    slackMessage := "", newState := none, deleteState := false }

/-- Cooldown selection (`calculateCooldown` in `alerts/manager.go`): scan the
dynamic cooldowns in list order, returning the first whose threshold the value
meets; otherwise fall back to the per-severity default. -/
def calculateCooldown (policy : AlertPolicy) (severity : Severity) (value : ℚ) :
    Int :=
  match policy.dynamicCooldowns.find? (fun dc => decide (dc.threshold ≤ value)) with
  | some dc => dc.cooldown
  | none =>
      if severity = .critical then policy.cooldownCritical
      else policy.cooldownWarning

/-- Absolute value of a rational, the model of Go's `math.Abs`. -/
def ratAbs (q : ℚ) : ℚ := if q < 0 then -q else q

/-- Relative value change used by the min-change gate
(`evaluateObservation` in `alerts/manager.go`, step 5): the absolute percent
change against the last-sent value, treating a move away from zero as 100%. -/
def percentChange (lastValue value : ℚ) : ℚ :=
  if lastValue ≠ 0 then ratAbs ((value - lastValue) / lastValue * 100)
  else if value ≠ 0 then 100
  else 0

/-- The reminder-path condition in step 5 of `evaluateObservation`. -/
def reminderApplies (policy : AlertPolicy) (state : AlertState) (now : Int)
    (severity : Severity) : Prop :=
  policy.reminderInterval > 0 ∧
  now - state.firstTriggered ≥ policy.reminderInterval ∧
  now - state.lastSent ≥ policy.reminderInterval ∧
  severity = .critical

instance (policy : AlertPolicy) (state : AlertState) (now : Int) (severity : Severity) :
    Decidable (reminderApplies policy state now severity) := by
  unfold reminderApplies
  infer_instance

/-- The decision procedure (`evaluateObservation` in `alerts/manager.go`).
It returns the action together with the state map as left by the procedure
itself: the Go code mutates the stored `AlertState` through its pointer
(the `ConsecutiveOK` increment in the OK branch and the reset to 0 in the
non-OK branch) before any send is attempted, so those mutations are part of
the returned map. -/
def evaluateObservation (policies : List (String × AlertPolicy))
    (states : AlertStates) (now : Int) (key : AlertKey) (severity : Severity)
    (value : ℚ) (summary details : String) (isBusinessAlert : Bool)
    (slackMessage : String) : AlertAction × AlertStates :=
  let policy := findPolicy policies key.job key.metric
  match findState states key with
  | none =>
      if severity = .ok then
        (noAction, states)
      else
        let msg := formatNewIncidentMessage key severity value summary details
        ({ shouldSend := true, message := msg, isBusinessAlert := isBusinessAlert
           slackMessage := slackMessage
           newState := some { severity := severity, lastSent := now
                              firstTriggered := now, lastValue := value
                              lastMessage := msg, consecutiveOK := 0 }
           deleteState := false }, states)
  | some state =>
      if severity = .ok then
        let state' := { state with consecutiveOK := state.consecutiveOK + 1 }
        let states' := setState states key state'
        if state'.consecutiveOK ≥ policy.consecutiveOKRequired ∧
            state.severity ≠ .ok then
          ({ noAction with deleteState := true }, states')
        else
          (noAction, states')
      else
        let state' := { state with consecutiveOK := 0 }
        let states' := setState states key state'
        if state'.severity = .ok then
          let msg := formatNewIncidentMessage key severity value summary details
          ({ shouldSend := true, message := msg, isBusinessAlert := isBusinessAlert
             slackMessage := slackMessage
             newState := some { severity := severity, lastSent := now
                                firstTriggered := now, lastValue := value
                                lastMessage := msg, consecutiveOK := 0 }
             deleteState := false }, states')
        else if severityLevel state'.severity < severityLevel severity then
          let msg := formatEscalationMessage key state' severity value summary details
          ({ shouldSend := true, message := msg, isBusinessAlert := isBusinessAlert
             slackMessage := slackMessage
             newState := some { severity := severity, lastSent := now
                                firstTriggered := state'.firstTriggered
                                lastValue := value, lastMessage := msg
                                consecutiveOK := 0 }
             deleteState := false }, states')
        else if severityLevel severity < severityLevel state'.severity then
          let msg := formatDeescalationMessage key state' severity value summary details
          ({ shouldSend := true, message := msg, isBusinessAlert := false
             slackMessage := ""
             newState := some { severity := severity, lastSent := now
                                firstTriggered := state'.firstTriggered
                                lastValue := value, lastMessage := msg
                                consecutiveOK := 0 }
             deleteState := false }, states')
        else
          let cooldown := calculateCooldown policy severity value
          if reminderApplies policy state' now severity then
            let msg := formatNewIncidentMessage key severity value summary details
            ({ shouldSend := true, message := msg, isBusinessAlert := false
               slackMessage := ""
               newState := some { severity := severity, lastSent := now
                                  firstTriggered := state'.firstTriggered
                                  lastValue := value, lastMessage := msg
                                  consecutiveOK := 0 }
               deleteState := false }, states')
          else if now - state'.lastSent < cooldown then
            (noAction, states')
          else if percentChange state'.lastValue value < policy.minValueChange then
            (noAction, states')
          else
            let msg := formatUpdateMessage key state' severity value summary details
            let sendToBusiness := isBusinessAlert ∧ severity = .critical
            ({ shouldSend := true, message := msg
               isBusinessAlert := decide sendToBusiness
               slackMessage := if decide sendToBusiness then slackMessage else ""
               newState := some { severity := severity, lastSent := now
                                  firstTriggered := state'.firstTriggered
                                  lastValue := value, lastMessage := msg
                                  consecutiveOK := 0 }
               deleteState := false }, states')

/-- The three notification sinks reached through the service
(`alerts/telegram.go`, used by `sendAlert`). -/
inductive Sink where
  | business
  | developer
  | slack
deriving DecidableEq, Repr

/-- Environment recording whether each sink accepts a message on this call. -/
structure SendOutcome where
  businessOK : Bool
  developerOK : Bool
  slackOK : Bool
deriving DecidableEq, Repr

/-- Routing and error propagation of `sendAlert` (`alerts/manager.go`):
returns the attempted deliveries in order and whether the call succeeded.
Business alerts send to the business sink first (its failure aborts and
propagates), then fan out to Slack (when a slack message is present) and to
the developer channel, whose failures are only logged. Non-business alerts
go to the developer sink, whose failure propagates. -/
def sendAlert (env : SendOutcome) (message : String) (isBusinessAlert : Bool)
    (slackMessage : String) : List (Sink × String) × Bool :=
  if isBusinessAlert then
    if env.businessOK = false then
      ([(.business, message)], false)
    else
      (([(.business, message)] ++
        (if slackMessage ≠ "" then [(.slack, slackMessage)] else [])) ++
        [(.developer, message)], true)
  else
    ([(.developer, message)], env.developerOK)

/-- Post-send state bookkeeping of `Observe` (`alerts/manager.go`): delete the
entry, store the new state, or leave the map alone. -/
def applyStateUpdate (states : AlertStates) (key : AlertKey)
    (action : AlertAction) : AlertStates :=
  if action.deleteState then delState states key
  else
    match action.newState with
    | some ns => setState states key ns
    | none => states

/-- `Observe` (`alerts/manager.go`): evaluate the observation, return early
when there is nothing to do, otherwise send (a primary failure returns the
failure before any post-send state update) and then apply the bookkeeping.
Result: (success flag, final state map, attempted deliveries). -/
def Observe (policies : List (String × AlertPolicy)) (states : AlertStates)
    (env : SendOutcome) (now : Int) (key : AlertKey) (severity : Severity)
    (value : ℚ) (summary details : String) (isBusinessAlert : Bool)
    (slackMessage : String) : Bool × AlertStates × List (Sink × String) :=
  let action := (evaluateObservation policies states now key severity value
      summary details isBusinessAlert slackMessage).1
  let states' := (evaluateObservation policies states now key severity value
      summary details isBusinessAlert slackMessage).2
  if action.shouldSend = false ∧ action.newState = none ∧
      action.deleteState = false then
    (true, states', [])
  else if action.shouldSend then
    let sent := (sendAlert env action.message action.isBusinessAlert
        action.slackMessage).1
    let ok := (sendAlert env action.message action.isBusinessAlert
        action.slackMessage).2
    if ok then (true, applyStateUpdate states' key action, sent)
    else (false, states', sent)
  else
    (true, applyStateUpdate states' key action, [])

/-- One observation fed to the manager, together with the clock reading at
which it is processed and the sink outcomes for its sends. -/
structure ObsInput where
  time : Int
  key : AlertKey
  severity : Severity
  value : ℚ
  summary : String
  details : String
  isBusinessAlert : Bool
  slackMessage : String
  env : SendOutcome

/-- Fold a sequence of observations through `Observe`, keeping the state map. -/
def runTrace (policies : List (String × AlertPolicy)) (states : AlertStates) :
    List ObsInput → AlertStates
  | [] => states
  | o :: rest =>
      runTrace policies
        (Observe policies states o.env o.time o.key o.severity o.value
          o.summary o.details o.isBusinessAlert o.slackMessage).2.1 rest

/-- Count the observations of a trace that produced a send. -/
def countSends (policies : List (String × AlertPolicy)) (states : AlertStates) :
    List ObsInput → Nat
  | [] => 0
  | o :: rest =>
      let r := Observe policies states o.env o.time o.key o.severity o.value
        o.summary o.details o.isBusinessAlert o.slackMessage
      (if r.2.2 = [] then 0 else 1) + countSends policies r.2.1 rest

/-- The last element of a list of instants, with default `t`. -/
def lastTime (t : Int) : List Int → Int
  | [] => t
  | a :: l => lastTime a l

/-- Per-key time invariant of the state map: first trigger never after the
last send, and the last send never after the clock bound `t`. -/
def StatesInv (t : Int) (states : AlertStates) : Prop :=
  ∀ k s, findState states k = some s →
    s.firstTriggered ≤ s.lastSent ∧ s.lastSent ≤ t

/- ### Oracle Monitor circuit breaker (`workers/oracle.go`, `Run`) -/

/-- The inputs of one `Run` tick that the circuit-breaker logic reads:
how many tokens the chain has and how many of this tick's results failed. -/
structure TickInput where
  tokenCount : Nat
  errorCount : Nat
deriving DecidableEq, Repr

/-- How a `Run` tick exited, as far as the breaker is concerned. -/
inductive RunOutcome where
  | skipped
  | noTokens
  | healthy
  | highErrorRate
deriving DecidableEq, Repr

/-- Circuit-breaker skeleton of `Run` (`workers/oracle.go`): a tick with
`failures ≥ 5` returns before checking any token and before the counter
update; otherwise the tokens are checked and the counter is incremented when
the error rate exceeds 50% and reset to 0 when it does not (a chain with no
tokens returns before the counter update as well). Returns the new counter
and the exit taken. -/
def runStep (failures : Nat) (t : TickInput) : Nat × RunOutcome :=
  if failures ≥ 5 then (failures, .skipped)
  else if t.tokenCount = 0 then (failures, .noTokens)
  else
    let errorRate : ℚ := (t.errorCount : ℚ) / (t.tokenCount : ℚ)
    if errorRate > 1/2 then (failures + 1, .highErrorRate)
    else (0, .healthy)

/-- Fold the breaker over a sequence of ticks. -/
def runTicks : Nat → List TickInput → Nat
  | f, [] => f
  | f, t :: rest => runTicks (runStep f t).1 rest

/- ### Aggregate health metrics (`workers/health_aggregate.go`) -/

/-- One row of the `UserPositions` table, as read by the aggregate query. -/
structure PositionRow where
  healthFactor : ℚ
  totalSupplied : ℚ
  totalBorrowed : ℚ
deriving DecidableEq, Repr

/-- The aggregate metrics record (`aggregateMetrics` in
`workers/health_aggregate.go`); `avgHealthFactor` is never assigned by the
code and keeps its zero value. -/
structure AggregateMetrics where
  totalPositions : Nat
  riskyPositions : Nat
  avgHealthFactor : ℚ
  weightedAvgHF : ℚ
  totalCollateralUSD : ℚ
  totalBorrowUSD : ℚ
deriving DecidableEq, Repr

/-- `getAggregateMetrics` (`workers/health_aggregate.go`): the SQL aggregates
over rows with `0 < health_factor < 1000`, followed by the borrow-weighted
average health factor, capped at 100, with 999 standing in when there are no
borrows. -/
def getAggregateMetrics (rows : List PositionRow) : AggregateMetrics :=
  let filtered := rows.filter
    (fun r => decide (0 < r.healthFactor ∧ r.healthFactor < 1000))
  let totalBorrow := (filtered.map (fun r => r.totalBorrowed)).sum
  let weightedHFSum :=
    (filtered.map (fun r => min r.healthFactor 100 * r.totalBorrowed)).sum
  let weightedAvgHF :=
    if 0 < totalBorrow then
      let w := weightedHFSum / totalBorrow
      if 100 < w then 100 else w
    else 999
  { totalPositions := filtered.length
    riskyPositions := (filtered.filter
      (fun r => decide (0 < r.healthFactor ∧ r.healthFactor < 6/5))).length
    avgHealthFactor := 0
    weightedAvgHF := weightedAvgHF
    totalCollateralUSD := (filtered.map (fun r => r.totalSupplied)).sum
    totalBorrowUSD := totalBorrow }

/-- The spec's borrow-weighted sum, written as the spec states it: the sum of
`min(HF, 100) × total_borrowed` over the rows with `0 < HF < 1000`. -/
def specWeightedHFSum (rows : List PositionRow) : ℚ :=
  (rows.map (fun r =>
    if 0 < r.healthFactor ∧ r.healthFactor < 1000 then
      min r.healthFactor 100 * r.totalBorrowed
    else 0)).sum

/-- The spec's total borrowed: the sum of `total_borrowed` over the rows with
`0 < HF < 1000`. -/
def specTotalBorrow (rows : List PositionRow) : ℚ :=
  (rows.map (fun r =>
    if 0 < r.healthFactor ∧ r.healthFactor < 1000 then r.totalBorrowed
    else 0)).sum

/- ### Borrow concentration (`workers/concentration.go`) -/

/-- One observation emitted to the manager by the concentration job. The
textual summary, details and slack payloads carry no control flow and are not
modelled. -/
structure Emission where
  key : AlertKey
  severity : Severity
  value : ℚ
  isBusinessAlert : Bool
deriving DecidableEq, Repr

/-- Total borrows as computed by the first query of
`checkBorrowConcentration`: the sum of `total_borrowed` over rows with
`total_borrowed > 0`. -/
def borrowTotal (rows : List (String × ℚ)) : ℚ :=
  ((rows.filter (fun r => decide (0 < r.2))).map (fun r => r.2)).sum

/-- Insert one borrower into a list sorted by borrowed amount descending. -/
def insertByBorrowDesc (r : String × ℚ) :
    List (String × ℚ) → List (String × ℚ)
  | [] => [r]
  | x :: xs => if x.2 < r.2 then r :: x :: xs else x :: insertByBorrowDesc r xs

/-- Sort borrowers by borrowed amount descending (the `ORDER BY
total_borrowed DESC` of the top-borrowers query). -/
def sortByBorrowDesc : List (String × ℚ) → List (String × ℚ)
  | [] => []
  | x :: xs => insertByBorrowDesc x (sortByBorrowDesc xs)

/-- `checkBorrowConcentration` (`workers/concentration.go`): when the total
borrowed is zero, emit a single OK observation for the top-10 key and return;
otherwise compute the top-10 and max-single shares over the ten largest
borrowers and emit the two concentration observations. -/
def checkBorrowConcentration (rows : List (String × ℚ)) : List Emission :=
  let totalBorrows := borrowTotal rows
  if totalBorrows = 0 then
    [{ key := { job := "concentration", entity := "protocol", metric := "borrow_top10" }
       severity := .ok, value := 0, isBusinessAlert := false }]
  else
    let top10 :=
      (sortByBorrowDesc (rows.filter (fun r => decide (0 < r.2)))).take 10
    let top10Sum := (top10.map (fun r => r.2)).sum
    let maxPair := top10.foldl
      (fun (acc : ℚ × String) r => if acc.1 < r.2 then (r.2, r.1) else acc)
      (0, "")
    let top10Percentage := top10Sum / totalBorrows * 100
    let maxSinglePercentage := maxPair.1 / totalBorrows * 100
    let sevTop : Severity :=
      if 90 ≤ top10Percentage then .critical
      else if 80 ≤ top10Percentage then .warning
      else .ok
    let sevSingle : Severity :=
      if 50 ≤ maxSinglePercentage then .critical
      else if 40 ≤ maxSinglePercentage then .warning
      else .ok
    [{ key := { job := "concentration", entity := "protocol", metric := "borrow_top10" }
       severity := sevTop, value := top10Percentage, isBusinessAlert := true },
     { key := { job := "concentration", entity := maxPair.2, metric := "borrow_single" }
       severity := sevSingle, value := maxSinglePercentage, isBusinessAlert := true }]

/-- Feed a list of emissions through the manager at one instant; `det` and
`slk` supply the unmodelled details and slack payload of each emission. -/
def runEmissions (policies : List (String × AlertPolicy)) (env : SendOutcome)
    (now : Int) (det slk : Emission → String) (states : AlertStates) :
    List Emission → AlertStates
  | [] => states
  | e :: rest =>
      runEmissions policies env now det slk
        (Observe policies states env now e.key e.severity e.value ""
          (det e) e.isBusinessAlert (slk e)).2.1 rest

/- ### Concrete inputs used by counterexamples, scenarios and witnesses -/

/-- Environment in which every sink accepts. -/
def envAllOK : SendOutcome := { businessOK := true, developerOK := true, slackOK := true }

/-- Environment in which the business sink rejects. -/
def envBusinessFail : SendOutcome := { businessOK := false, developerOK := true, slackOK := true }

/-- A stablecoin-deviation alert key. -/
def exKey : AlertKey :=
  { job := "oracle_base", entity := "USDC", metric := "price_deviation_stable" }

/-- A Warning observation opening an incident on `exKey`. -/
def exObs1 : ObsInput :=
  { time := 0, key := exKey, severity := .warning, value := 6/5, summary := ""
    details := "d1", isBusinessAlert := true, slackMessage := "s1", env := envAllOK }

/-- An OK observation on `exKey`, starting recovery hysteresis. -/
def exObs2 : ObsInput :=
  { time := 60, key := exKey, severity := .ok, value := 1/10, summary := ""
    details := "", isBusinessAlert := false, slackMessage := "", env := envAllOK }

/-- The state map after the Warning incident and one OK reading. -/
def exStates2 : AlertStates := runTrace [] [] [exObs1, exObs2]

/-- The policy of the min-change scenario: `MinValueChange = 5`,
Critical cooldown 300 s, no reminder. -/
def gatePolicy : AlertPolicy :=
  { minValueChange := 5, cooldownWarning := 900, cooldownCritical := 300
    dynamicCooldowns := [], reminderInterval := 0, triggerThreshold := 0
    consecutiveOKRequired := 2 }

/-- Registry holding `gatePolicy` for `exKey`. -/
def gatePolicies : List (String × AlertPolicy) :=
  [("oracle_base:price_deviation_stable", gatePolicy)]

/-- A Critical observation on `exKey` at time `t` with value `v`. -/
def gateObs (t : Int) (v : ℚ) : ObsInput :=
  { time := t, key := exKey, severity := .critical, value := v, summary := ""
    details := "d", isBusinessAlert := false, slackMessage := "", env := envAllOK }

/-- A generic stored warning state carrying one OK reading. -/
def exAlertState : AlertState :=
  { severity := .warning, lastSent := 0, firstTriggered := 0, lastValue := 1
    lastMessage := "m", consecutiveOK := 1 }

/-- A one-entry state map holding `exAlertState` under `exKey`. -/
def exStates1 : AlertStates := [(exKey, exAlertState)]

/-- The dynamic-cooldown example policy: `[(20, 10 s), (10, 30 s)]` with
severity default 300 s. -/
def exCooldownPolicy : AlertPolicy :=
  { minValueChange := 0, cooldownWarning := 300, cooldownCritical := 300
    dynamicCooldowns := [{ threshold := 20, cooldown := 10 },
                         { threshold := 10, cooldown := 30 }]
    reminderInterval := 0, triggerThreshold := 0, consecutiveOKRequired := 2 }

/- ### Helper lemmas about the state map -/

theorem findState_setState_self (states : AlertStates) (k : AlertKey) (s : AlertState) :
    findState (setState states k s) k = some s := by
  induction states with
  | nil => simp [setState, findState]
  | cons p rest ih =>
      obtain ⟨k', s'⟩ := p
      by_cases h : k' = k
      · simp [setState, findState, h]
      · simp [setState, findState, h, ih]

theorem findState_setState_ne (states : AlertStates) (k k' : AlertKey)
    (s : AlertState) (h : k' ≠ k) :
    findState (setState states k s) k' = findState states k' := by
  induction states with
  | nil => simp [setState, findState, Ne.symm h]
  | cons p rest ih =>
      obtain ⟨k'', s''⟩ := p
      by_cases hk : k'' = k
      · subst hk
        simp [setState, findState, Ne.symm h]
      · simp only [setState, findState, if_neg hk]
        by_cases hk' : k'' = k'
        · simp [findState, hk']
        · simp [findState, hk', ih]

theorem findState_delState_self (states : AlertStates) (k : AlertKey) :
    findState (delState states k) k = none := by
  induction states with
  | nil => simp [delState, findState]
  | cons p rest ih =>
      obtain ⟨k', s'⟩ := p
      by_cases h : k' = k
      · simp [delState, h, ih]
      · simp [delState, findState, h, ih]

theorem findState_delState_ne (states : AlertStates) (k k' : AlertKey)
    (h : k' ≠ k) :
    findState (delState states k) k' = findState states k' := by
  induction states with
  | nil => simp [delState, findState]
  | cons p rest ih =>
      obtain ⟨k'', s''⟩ := p
      by_cases hk : k'' = k
      · subst hk
        simp [delState, findState, ih, Ne.symm h]
      · simp [delState, findState, hk, ih]

/- ### Path equations for the decision procedure -/

/-- OK observation with no stored state: nothing to clear. -/
theorem eval_ok_none {policies : List (String × AlertPolicy)} {states : AlertStates}
    {now : Int} {key : AlertKey} {value : ℚ} {summary details : String}
    {biz : Bool} {slack : String}
    (h : findState states key = none) :
    evaluateObservation policies states now key .ok value summary details biz slack
      = (noAction, states) := by
  simp [evaluateObservation, h]

/-- OK observation reaching the hysteresis threshold: silent delete (the
incremented counter is persisted by the pointer mutation, then the entry is
deleted by the caller). -/
theorem eval_ok_clear {policies : List (String × AlertPolicy)} {states : AlertStates}
    {now : Int} {key : AlertKey} {value : ℚ} {summary details : String}
    {biz : Bool} {slack : String} {s : AlertState}
    (h : findState states key = some s)
    (hc : s.consecutiveOK + 1 ≥ (findPolicy policies key.job key.metric).consecutiveOKRequired ∧
          s.severity ≠ .ok) :
    evaluateObservation policies states now key .ok value summary details biz slack
      = ({ noAction with deleteState := true },
         setState states key { s with consecutiveOK := s.consecutiveOK + 1 }) := by
  simp [evaluateObservation, h, hc.1, hc.2]

/-- OK observation below the hysteresis threshold: just count it. -/
theorem eval_ok_count {policies : List (String × AlertPolicy)} {states : AlertStates}
    {now : Int} {key : AlertKey} {value : ℚ} {summary details : String}
    {biz : Bool} {slack : String} {s : AlertState}
    (h : findState states key = some s)
    (hc : ¬(s.consecutiveOK + 1 ≥ (findPolicy policies key.job key.metric).consecutiveOKRequired ∧
            s.severity ≠ .ok)) :
    evaluateObservation policies states now key .ok value summary details biz slack
      = (noAction, setState states key { s with consecutiveOK := s.consecutiveOK + 1 }) := by
  simp [evaluateObservation, h, hc]

/-- Non-OK observation with no stored state: new incident. -/
theorem eval_new_none {policies : List (String × AlertPolicy)} {states : AlertStates}
    {now : Int} {key : AlertKey} {sev : Severity} {value : ℚ}
    {summary details : String} {biz : Bool} {slack : String}
    (h : findState states key = none) (hsev : sev ≠ .ok) :
    evaluateObservation policies states now key sev value summary details biz slack
      = ({ shouldSend := true
           message := formatNewIncidentMessage key sev value summary details
           isBusinessAlert := biz, slackMessage := slack
           newState := some { severity := sev, lastSent := now, firstTriggered := now
                              lastValue := value
                              lastMessage := formatNewIncidentMessage key sev value summary details
                              consecutiveOK := 0 }
           deleteState := false }, states) := by
  simp [evaluateObservation, h, hsev]

/-- Non-OK observation over a stored OK severity: also a new incident, with
the counter reset already persisted. -/
theorem eval_new_someOK {policies : List (String × AlertPolicy)} {states : AlertStates}
    {now : Int} {key : AlertKey} {sev : Severity} {value : ℚ}
    {summary details : String} {biz : Bool} {slack : String} {s : AlertState}
    (h : findState states key = some s) (hsev : sev ≠ .ok) (hsok : s.severity = .ok) :
    evaluateObservation policies states now key sev value summary details biz slack
      = ({ shouldSend := true
           message := formatNewIncidentMessage key sev value summary details
           isBusinessAlert := biz, slackMessage := slack
           newState := some { severity := sev, lastSent := now, firstTriggered := now
                              lastValue := value
                              lastMessage := formatNewIncidentMessage key sev value summary details
                              consecutiveOK := 0 }
           deleteState := false }, setState states key { s with consecutiveOK := 0 }) := by
  simp [evaluateObservation, h, hsev, hsok]

/-- Escalation: higher severity than stored. -/
theorem eval_escalation {policies : List (String × AlertPolicy)} {states : AlertStates}
    {now : Int} {key : AlertKey} {sev : Severity} {value : ℚ}
    {summary details : String} {biz : Bool} {slack : String} {s : AlertState}
    (h : findState states key = some s) (hsev : sev ≠ .ok) (hsok : s.severity ≠ .ok)
    (hlt : severityLevel s.severity < severityLevel sev) :
    evaluateObservation policies states now key sev value summary details biz slack
      = ({ shouldSend := true
           message := formatEscalationMessage key { s with consecutiveOK := 0 } sev value summary details
           isBusinessAlert := biz, slackMessage := slack
           newState := some { severity := sev, lastSent := now
                              firstTriggered := s.firstTriggered, lastValue := value
                              lastMessage := formatEscalationMessage key { s with consecutiveOK := 0 } sev value summary details
                              consecutiveOK := 0 }
           deleteState := false }, setState states key { s with consecutiveOK := 0 }) := by
  simp [evaluateObservation, h, hsev, hsok, hlt]

/-- De-escalation: lower severity than stored; developer-only, no slack. -/
theorem eval_deescalation {policies : List (String × AlertPolicy)} {states : AlertStates}
    {now : Int} {key : AlertKey} {sev : Severity} {value : ℚ}
    {summary details : String} {biz : Bool} {slack : String} {s : AlertState}
    (h : findState states key = some s) (hsev : sev ≠ .ok) (hsok : s.severity ≠ .ok)
    (hlt : severityLevel sev < severityLevel s.severity) :
    evaluateObservation policies states now key sev value summary details biz slack
      = ({ shouldSend := true
           message := formatDeescalationMessage key { s with consecutiveOK := 0 } sev value summary details
           isBusinessAlert := false, slackMessage := ""
           newState := some { severity := sev, lastSent := now
                              firstTriggered := s.firstTriggered, lastValue := value
                              lastMessage := formatDeescalationMessage key { s with consecutiveOK := 0 } sev value summary details
                              consecutiveOK := 0 }
           deleteState := false }, setState states key { s with consecutiveOK := 0 }) := by
  simp [evaluateObservation, h, hsev, hsok, hlt, Nat.lt_asymm hlt]

/-- Same severity, reminder path taken: developer-only reminder. -/
theorem eval_reminder {policies : List (String × AlertPolicy)} {states : AlertStates}
    {now : Int} {key : AlertKey} {sev : Severity} {value : ℚ}
    {summary details : String} {biz : Bool} {slack : String} {s : AlertState}
    (h : findState states key = some s) (hsev : sev ≠ .ok) (hsok : s.severity ≠ .ok)
    (heq : severityLevel sev = severityLevel s.severity)
    (hrem : reminderApplies (findPolicy policies key.job key.metric)
      { s with consecutiveOK := 0 } now sev) :
    evaluateObservation policies states now key sev value summary details biz slack
      = ({ shouldSend := true
           message := formatNewIncidentMessage key sev value summary details
           isBusinessAlert := false, slackMessage := ""
           newState := some { severity := sev, lastSent := now
                              firstTriggered := s.firstTriggered, lastValue := value
                              lastMessage := formatNewIncidentMessage key sev value summary details
                              consecutiveOK := 0 }
           deleteState := false }, setState states key { s with consecutiveOK := 0 }) := by
  simp [evaluateObservation, h, hsev, hsok, heq.le.not_lt, heq.ge.not_lt, hrem]

/-- Same severity, no reminder, still inside the cooldown window: no-op. -/
theorem eval_cooldown_noop {policies : List (String × AlertPolicy)} {states : AlertStates}
    {now : Int} {key : AlertKey} {sev : Severity} {value : ℚ}
    {summary details : String} {biz : Bool} {slack : String} {s : AlertState}
    (h : findState states key = some s) (hsev : sev ≠ .ok) (hsok : s.severity ≠ .ok)
    (heq : severityLevel sev = severityLevel s.severity)
    (hrem : ¬ reminderApplies (findPolicy policies key.job key.metric)
      { s with consecutiveOK := 0 } now sev)
    (hcd : now - s.lastSent < calculateCooldown (findPolicy policies key.job key.metric) sev value) :
    evaluateObservation policies states now key sev value summary details biz slack
      = (noAction, setState states key { s with consecutiveOK := 0 }) := by
  simp [evaluateObservation, h, hsev, hsok, heq.le.not_lt, heq.ge.not_lt, hrem, hcd]

/-- Same severity, past the cooldown but below the min-change gate: no-op. -/
theorem eval_minchange_noop {policies : List (String × AlertPolicy)} {states : AlertStates}
    {now : Int} {key : AlertKey} {sev : Severity} {value : ℚ}
    {summary details : String} {biz : Bool} {slack : String} {s : AlertState}
    (h : findState states key = some s) (hsev : sev ≠ .ok) (hsok : s.severity ≠ .ok)
    (heq : severityLevel sev = severityLevel s.severity)
    (hrem : ¬ reminderApplies (findPolicy policies key.job key.metric)
      { s with consecutiveOK := 0 } now sev)
    (hcd : ¬(now - s.lastSent < calculateCooldown (findPolicy policies key.job key.metric) sev value))
    (hmc : percentChange s.lastValue value < (findPolicy policies key.job key.metric).minValueChange) :
    evaluateObservation policies states now key sev value summary details biz slack
      = (noAction, setState states key { s with consecutiveOK := 0 }) := by
  simp [evaluateObservation, h, hsev, hsok, heq.le.not_lt, heq.ge.not_lt, hrem, hcd, hmc]

/-- Same severity, both gates passed: update, business only when critical. -/
theorem eval_update {policies : List (String × AlertPolicy)} {states : AlertStates}
    {now : Int} {key : AlertKey} {sev : Severity} {value : ℚ}
    {summary details : String} {biz : Bool} {slack : String} {s : AlertState}
    (h : findState states key = some s) (hsev : sev ≠ .ok) (hsok : s.severity ≠ .ok)
    (heq : severityLevel sev = severityLevel s.severity)
    (hrem : ¬ reminderApplies (findPolicy policies key.job key.metric)
      { s with consecutiveOK := 0 } now sev)
    (hcd : ¬(now - s.lastSent < calculateCooldown (findPolicy policies key.job key.metric) sev value))
    (hmc : ¬(percentChange s.lastValue value < (findPolicy policies key.job key.metric).minValueChange)) :
    evaluateObservation policies states now key sev value summary details biz slack
      = ({ shouldSend := true
           message := formatUpdateMessage key { s with consecutiveOK := 0 } sev value summary details
           isBusinessAlert := decide (biz = true ∧ sev = .critical)
           slackMessage := if decide (biz = true ∧ sev = .critical) = true then slack else ""
           newState := some { severity := sev, lastSent := now
                              firstTriggered := s.firstTriggered, lastValue := value
                              lastMessage := formatUpdateMessage key { s with consecutiveOK := 0 } sev value summary details
                              consecutiveOK := 0 }
           deleteState := false }, setState states key { s with consecutiveOK := 0 }) := by
  simp [evaluateObservation, h, hsev, hsok, heq.le.not_lt, heq.ge.not_lt, hrem, hcd, hmc]

/-- Exhaustive shape analysis of one decision: how the persisted map relates
to the previous one, and the possible shapes of the action's new state. -/
theorem evalObs_shape (policies : List (String × AlertPolicy)) (states : AlertStates)
    (now : Int) (key : AlertKey) (sev : Severity) (value : ℚ)
    (summary details : String) (biz : Bool) (slack : String) :
    (((evaluateObservation policies states now key sev value summary details biz slack).2
        = states ∧ findState states key = none) ∨
     (∃ s, findState states key = some s ∧ sev = .ok ∧
        (evaluateObservation policies states now key sev value summary details biz slack).2
          = setState states key { s with consecutiveOK := s.consecutiveOK + 1 }) ∨
     (∃ s, findState states key = some s ∧ sev ≠ .ok ∧
        (evaluateObservation policies states now key sev value summary details biz slack).2
          = setState states key { s with consecutiveOK := 0 })) ∧
    ((evaluateObservation policies states now key sev value summary details biz slack).1.newState
        = none ∨
     (∃ m, (evaluateObservation policies states now key sev value summary details biz slack).1.newState
        = some { severity := sev, lastSent := now, firstTriggered := now
                 lastValue := value, lastMessage := m, consecutiveOK := 0 }) ∨
     (∃ m s, findState states key = some s ∧
        (evaluateObservation policies states now key sev value summary details biz slack).1.newState
          = some { severity := sev, lastSent := now, firstTriggered := s.firstTriggered
                   lastValue := value, lastMessage := m, consecutiveOK := 0 })) := by
  rcases hfs : findState states key with _ | s
  · by_cases hsev : sev = .ok
    · subst hsev
      rw [eval_ok_none hfs]
      exact ⟨Or.inl ⟨rfl, rfl⟩, Or.inl rfl⟩
    · rw [eval_new_none hfs hsev]
      exact ⟨Or.inl ⟨rfl, rfl⟩, Or.inr (Or.inl ⟨_, rfl⟩)⟩
  · by_cases hsev : sev = .ok
    · subst hsev
      by_cases hc : s.consecutiveOK + 1 ≥ (findPolicy policies key.job key.metric).consecutiveOKRequired ∧ s.severity ≠ .ok
      · rw [eval_ok_clear hfs hc]
        exact ⟨Or.inr (Or.inl ⟨s, rfl, rfl, rfl⟩), Or.inl rfl⟩
      · rw [eval_ok_count hfs hc]
        exact ⟨Or.inr (Or.inl ⟨s, rfl, rfl, rfl⟩), Or.inl rfl⟩
    · by_cases hsok : s.severity = .ok
      · rw [eval_new_someOK hfs hsev hsok]
        exact ⟨Or.inr (Or.inr ⟨s, rfl, hsev, rfl⟩), Or.inr (Or.inl ⟨_, rfl⟩)⟩
      · rcases Nat.lt_trichotomy (severityLevel s.severity) (severityLevel sev) with hlt | hle | hgt
        · rw [eval_escalation hfs hsev hsok hlt]
          exact ⟨Or.inr (Or.inr ⟨s, rfl, hsev, rfl⟩), Or.inr (Or.inr ⟨_, s, rfl, rfl⟩)⟩
        · have heq : severityLevel sev = severityLevel s.severity := hle.symm
          by_cases hrem : reminderApplies (findPolicy policies key.job key.metric) { s with consecutiveOK := 0 } now sev
          · rw [eval_reminder hfs hsev hsok heq hrem]
            exact ⟨Or.inr (Or.inr ⟨s, rfl, hsev, rfl⟩), Or.inr (Or.inr ⟨_, s, rfl, rfl⟩)⟩
          · by_cases hcd : now - s.lastSent < calculateCooldown (findPolicy policies key.job key.metric) sev value
            · rw [eval_cooldown_noop hfs hsev hsok heq hrem hcd]
              exact ⟨Or.inr (Or.inr ⟨s, rfl, hsev, rfl⟩), Or.inl rfl⟩
            · by_cases hmc : percentChange s.lastValue value < (findPolicy policies key.job key.metric).minValueChange
              · rw [eval_minchange_noop hfs hsev hsok heq hrem hcd hmc]
                exact ⟨Or.inr (Or.inr ⟨s, rfl, hsev, rfl⟩), Or.inl rfl⟩
              · rw [eval_update hfs hsev hsok heq hrem hcd hmc]
                exact ⟨Or.inr (Or.inr ⟨s, rfl, hsev, rfl⟩), Or.inr (Or.inr ⟨_, s, rfl, rfl⟩)⟩
        · rw [eval_deescalation hfs hsev hsok hgt]
          exact ⟨Or.inr (Or.inr ⟨s, rfl, hsev, rfl⟩), Or.inr (Or.inr ⟨_, s, rfl, rfl⟩)⟩

/-- An OK observation never asks for a send. -/
theorem evalObs_ok_noSend (policies : List (String × AlertPolicy)) (states : AlertStates)
    (now : Int) (key : AlertKey) (value : ℚ)
    (summary details : String) (biz : Bool) (slack : String) :
    (evaluateObservation policies states now key .ok value summary details biz slack).1.shouldSend
      = false := by
  rcases hfs : findState states key with _ | s
  · rw [eval_ok_none hfs]
    rfl
  · by_cases hc : s.consecutiveOK + 1 ≥ (findPolicy policies key.job key.metric).consecutiveOKRequired ∧ s.severity ≠ .ok
    · rw [eval_ok_clear hfs hc]
      rfl
    · rw [eval_ok_count hfs hc]
      rfl

/-- The success bit of `sendAlert` is exactly the health of the primary sink. -/
theorem sendAlert_ok_eq (env : SendOutcome) (m : String) (b : Bool) (s : String) :
    (sendAlert env m b s).2 = (if b then env.businessOK else env.developerOK) := by
  unfold sendAlert
  cases b with
  | false => rfl
  | true => cases hb : env.businessOK <;> simp [hb]

/-- The map returned by `Observe` is either the one left by the decision
procedure or that map with the action's bookkeeping applied. -/
theorem observe_states_shape (policies : List (String × AlertPolicy))
    (states : AlertStates) (env : SendOutcome) (now : Int) (key : AlertKey)
    (sev : Severity) (value : ℚ) (summary details : String) (biz : Bool)
    (slack : String) :
    (Observe policies states env now key sev value summary details biz slack).2.1
        = (evaluateObservation policies states now key sev value summary details biz slack).2 ∨
    (Observe policies states env now key sev value summary details biz slack).2.1
        = applyStateUpdate
            (evaluateObservation policies states now key sev value summary details biz slack).2
            key
            (evaluateObservation policies states now key sev value summary details biz slack).1 := by
  unfold Observe
  dsimp only
  split
  · exact Or.inl rfl
  · split
    · split
      · exact Or.inr rfl
      · exact Or.inl rfl
    · exact Or.inr rfl


/-- State bookkeeping touches no key other than the observed one. -/
theorem applyStateUpdate_ne (states : AlertStates) (key k : AlertKey)
    (action : AlertAction) (hk : k ≠ key) :
    findState (applyStateUpdate states key action) k = findState states k := by
  unfold applyStateUpdate
  split
  · exact findState_delState_ne states key k hk
  · split
    · exact findState_setState_ne states key k _ hk
    · rfl

/-- The decision procedure leaves every other key untouched. -/
theorem evalObs_findState_ne (policies : List (String × AlertPolicy))
    (states : AlertStates) (now : Int) (key : AlertKey)
    (sev : Severity) (value : ℚ) (summary details : String) (biz : Bool)
    (slack : String) (k : AlertKey) (hk : k ≠ key) :
    findState (evaluateObservation policies states now key sev value summary details biz slack).2 k
      = findState states k := by
  rcases (evalObs_shape policies states now key sev value summary details biz slack).1 with
    ⟨heq, _⟩ | ⟨s, _, _, heq⟩ | ⟨s, _, _, heq⟩ <;>
    rw [heq] <;> try rw [findState_setState_ne states key k _ hk]

/-- A whole `Observe` call leaves every other key untouched. -/
theorem observe_findState_ne (policies : List (String × AlertPolicy))
    (states : AlertStates) (env : SendOutcome) (now : Int) (key : AlertKey)
    (sev : Severity) (value : ℚ) (summary details : String) (biz : Bool)
    (slack : String) (k : AlertKey) (hk : k ≠ key) :
    findState (Observe policies states env now key sev value summary details biz slack).2.1 k
      = findState states k := by
  rcases observe_states_shape policies states env now key sev value summary details biz slack with
    h | h
  · rw [h, evalObs_findState_ne _ _ _ _ _ _ _ _ _ _ _ hk]
  · rw [h, applyStateUpdate_ne _ _ _ _ hk, evalObs_findState_ne _ _ _ _ _ _ _ _ _ _ _ hk]

/-- `Observe` fails exactly when the decision asked for a send and the
primary sink of the chosen route rejected it. -/
theorem observe_fail_iff (policies : List (String × AlertPolicy))
    (states : AlertStates) (env : SendOutcome) (now : Int) (key : AlertKey)
    (sev : Severity) (value : ℚ) (summary details : String) (biz : Bool)
    (slack : String) :
    (Observe policies states env now key sev value summary details biz slack).1 = false ↔
      ((evaluateObservation policies states now key sev value summary details biz slack).1.shouldSend = true ∧
       (if (evaluateObservation policies states now key sev value summary details biz slack).1.isBusinessAlert
        then env.businessOK else env.developerOK) = false) := by
  set A := (evaluateObservation policies states now key sev value summary details biz slack).1 with hA
  unfold Observe
  rw [← hA]
  dsimp only
  rw [sendAlert_ok_eq]
  split
  · rename_i hearly
    simp [hearly.1]
  · by_cases hsend : A.shouldSend = true
    · rw [if_pos hsend]
      by_cases hgood : (if A.isBusinessAlert = true then env.businessOK else env.developerOK) = true
      · rw [if_pos hgood]
        simp [hsend, hgood]
      · rw [if_neg hgood]
        simp only [Bool.not_eq_true] at hgood
        simp [hsend, hgood]
    · rw [if_neg hsend]
      simp only [Bool.not_eq_true] at hsend
      simp [hsend]

/-- On failure, the map returned by `Observe` is the one left by the
decision procedure itself. -/
theorem observe_fail_states (policies : List (String × AlertPolicy))
    (states : AlertStates) (env : SendOutcome) (now : Int) (key : AlertKey)
    (sev : Severity) (value : ℚ) (summary details : String) (biz : Bool)
    (slack : String)
    (hfail : (Observe policies states env now key sev value summary details biz slack).1 = false) :
    (Observe policies states env now key sev value summary details biz slack).2.1
      = (evaluateObservation policies states now key sev value summary details biz slack).2 := by
  revert hfail
  unfold Observe
  dsimp only
  split
  · intro hfail
    exact absurd hfail (by simp)
  · split
    · split
      · intro hfail
        exact absurd hfail (by simp)
      · intro _
        rfl
    · intro hfail
      exact absurd hfail (by simp)

/-- When the decision yields the empty action, `Observe` succeeds with no
sends, keeping the procedure's map. -/
theorem observe_eval_noAction {policies : List (String × AlertPolicy)}
    {states st' : AlertStates} {env : SendOutcome} {now : Int} {key : AlertKey}
    {sev : Severity} {value : ℚ} {summary details : String} {biz : Bool}
    {slack : String}
    (heval : evaluateObservation policies states now key sev value summary details biz slack
      = (noAction, st')) :
    Observe policies states env now key sev value summary details biz slack
      = (true, st', []) := by
  unfold Observe
  rw [heval]
  rfl

/-- When the decision asks only for a deletion, `Observe` succeeds with no
sends and deletes the entry. -/
theorem observe_eval_delete {policies : List (String × AlertPolicy)}
    {states st' : AlertStates} {env : SendOutcome} {now : Int} {key : AlertKey}
    {sev : Severity} {value : ℚ} {summary details : String} {biz : Bool}
    {slack : String}
    (heval : evaluateObservation policies states now key sev value summary details biz slack
      = ({ noAction with deleteState := true }, st')) :
    Observe policies states env now key sev value summary details biz slack
      = (true, delState st' key, []) := by
  unfold Observe
  rw [heval]
  rfl

/-- When the decision asks for a send and the primary sink accepts,
`Observe` succeeds, performs the fan-out of `sendAlert`, and applies the
bookkeeping. -/
theorem observe_eval_send {policies : List (String × AlertPolicy)}
    {states st' : AlertStates} {env : SendOutcome} {now : Int} {key : AlertKey}
    {sev : Severity} {value : ℚ} {summary details : String} {biz : Bool}
    {slack : String} {act : AlertAction}
    (heval : evaluateObservation policies states now key sev value summary details biz slack
      = (act, st'))
    (hsend : act.shouldSend = true)
    (hok : (if act.isBusinessAlert then env.businessOK else env.developerOK) = true) :
    Observe policies states env now key sev value summary details biz slack
      = (true, applyStateUpdate st' key act,
         (sendAlert env act.message act.isBusinessAlert act.slackMessage).1) := by
  unfold Observe
  rw [heval]
  dsimp only
  rw [if_neg (by simp [hsend]), if_pos hsend, sendAlert_ok_eq, if_pos hok]

/-- When the decision asks for a send and the primary sink rejects,
`Observe` fails and performs no bookkeeping beyond the procedure's map. -/
theorem observe_eval_send_fail {policies : List (String × AlertPolicy)}
    {states st' : AlertStates} {env : SendOutcome} {now : Int} {key : AlertKey}
    {sev : Severity} {value : ℚ} {summary details : String} {biz : Bool}
    {slack : String} {act : AlertAction}
    (heval : evaluateObservation policies states now key sev value summary details biz slack
      = (act, st'))
    (hsend : act.shouldSend = true)
    (hbad : (if act.isBusinessAlert then env.businessOK else env.developerOK) = false) :
    Observe policies states env now key sev value summary details biz slack
      = (false, st',
         (sendAlert env act.message act.isBusinessAlert act.slackMessage).1) := by
  unfold Observe
  rw [heval]
  dsimp only
  rw [if_neg (by simp [hsend]), if_pos hsend, sendAlert_ok_eq, if_neg (by simp [hbad])]

/- ### Claim theorems -/

/-- C2: for a key with an active Warning incident, a Critical observation
always takes the escalation path: it asks for exactly one send (the single
`sendAlert` fan-out), succeeds when the primary sink accepts, and stores the
Critical state preserving FirstTriggered while updating Severity, LastSent,
LastValue and LastMessage — with no condition on cooldown or value change. -/
theorem escalation_overrides_gates (policies : List (String × AlertPolicy))
    (states : AlertStates) (env : SendOutcome) (now : Int) (key : AlertKey)
    (value : ℚ) (summary details : String) (biz : Bool) (slack : String)
    (s : AlertState)
    (hs : findState states key = some s) (hw : s.severity = .warning)
    (henv : (if biz then env.businessOK else env.developerOK) = true) :
    (evaluateObservation policies states now key .critical value summary details biz slack).1.shouldSend
        = true ∧
    (Observe policies states env now key .critical value summary details biz slack).1 = true ∧
    (Observe policies states env now key .critical value summary details biz slack).2.2
        = (sendAlert env
            (formatEscalationMessage key { s with consecutiveOK := 0 } .critical value summary details)
            biz slack).1 ∧
    findState (Observe policies states env now key .critical value summary details biz slack).2.1 key
        = some { severity := .critical, lastSent := now, firstTriggered := s.firstTriggered
                 lastValue := value
                 lastMessage := formatEscalationMessage key { s with consecutiveOK := 0 } .critical value summary details
                 consecutiveOK := 0 } := by
  have hsev : (Severity.critical) ≠ .ok := by decide
  have hsok : s.severity ≠ .ok := by rw [hw]; decide
  have hlt : severityLevel s.severity < severityLevel .critical := by
    rw [hw]; decide
  have heval := @eval_escalation policies states now key .critical value summary details
    biz slack s hs hsev hsok hlt
  have hobs := observe_eval_send heval rfl henv
  rw [hobs]
  refine ⟨by rw [heval], rfl, rfl, ?_⟩
  exact findState_setState_self _ _ _

/-- C2 witness: a concrete Warning incident escalated by a Critical
observation with healthy sinks. -/
theorem escalation_overrides_gates_witness :
    findState (Observe [] exStates1 envAllOK 60 exKey .critical 7 "" "d" true "sl").2.1 exKey
        = some { severity := .critical, lastSent := 60, firstTriggered := 0
                 lastValue := 7
                 lastMessage := formatEscalationMessage exKey { exAlertState with consecutiveOK := 0 } .critical 7 "" "d"
                 consecutiveOK := 0 } :=
  (escalation_overrides_gates [] exStates1 envAllOK 60 exKey 7 "" "d" true "sl"
      exAlertState (by decide) (by decide) (by decide)).2.2.2

/-- C4: an observation with severity OK never produces a send: the decision
never asks for one and the delivery list is empty; with no stored state it is
a no-op, at the hysteresis threshold it silently deletes the state, and below
the threshold it only increments ConsecutiveOK. -/
theorem ok_observation_silent (policies : List (String × AlertPolicy))
    (states : AlertStates) (env : SendOutcome) (now : Int) (key : AlertKey)
    (value : ℚ) (summary details : String) (biz : Bool) (slack : String) :
    (evaluateObservation policies states now key .ok value summary details biz slack).1.shouldSend
        = false ∧
    (Observe policies states env now key .ok value summary details biz slack).2.2 = [] ∧
    (Observe policies states env now key .ok value summary details biz slack).1 = true ∧
    (findState states key = none →
       (Observe policies states env now key .ok value summary details biz slack).2.1 = states) ∧
    (∀ s, findState states key = some s →
       ((s.consecutiveOK + 1 ≥ (findPolicy policies key.job key.metric).consecutiveOKRequired ∧
           s.severity ≠ .ok) →
          findState (Observe policies states env now key .ok value summary details biz slack).2.1 key
            = none) ∧
       (¬(s.consecutiveOK + 1 ≥ (findPolicy policies key.job key.metric).consecutiveOKRequired ∧
           s.severity ≠ .ok) →
          findState (Observe policies states env now key .ok value summary details biz slack).2.1 key
            = some { s with consecutiveOK := s.consecutiveOK + 1 })) := by
  refine ⟨evalObs_ok_noSend policies states now key value summary details biz slack, ?_⟩
  rcases hfs : findState states key with _ | s
  · have hobs : Observe policies states env now key .ok value summary details biz slack
        = (true, states, []) := observe_eval_noAction (eval_ok_none hfs)
    rw [hobs]
    exact ⟨rfl, rfl, fun _ => rfl, fun s h => absurd h (by simp)⟩
  · by_cases hc : s.consecutiveOK + 1 ≥ (findPolicy policies key.job key.metric).consecutiveOKRequired ∧
        s.severity ≠ .ok
    · have hobs : Observe policies states env now key .ok value summary details biz slack
          = (true, delState (setState states key { s with consecutiveOK := s.consecutiveOK + 1 }) key, []) :=
        observe_eval_delete (eval_ok_clear hfs hc)
      rw [hobs]
      refine ⟨rfl, rfl, fun h => absurd h (by simp), fun s' h => ?_⟩
      have hss : s = s' := by injection h
      subst hss
      exact ⟨fun _ => findState_delState_self _ _, fun hnc => absurd hc hnc⟩
    · have hobs : Observe policies states env now key .ok value summary details biz slack
          = (true, setState states key { s with consecutiveOK := s.consecutiveOK + 1 }, []) :=
        observe_eval_noAction (eval_ok_count hfs hc)
      rw [hobs]
      refine ⟨rfl, rfl, fun h => absurd h (by simp), fun s' h => ?_⟩
      have hss : s = s' := by injection h
      subst hss
      exact ⟨fun hcc => absurd hcc hc, fun _ => findState_setState_self _ _ _⟩

/-- C4 witness: one OK reading over a Warning state that already counted one
OK (default policy requires two) silently deletes the entry. -/
theorem ok_observation_silent_witness :
    findState (Observe [] exStates1 envAllOK 60 exKey .ok 0 "" "" false "").2.1 exKey = none :=
  ((ok_observation_silent [] exStates1 envAllOK 60 exKey 0 "" "" false "").2.2.2.2
      exAlertState (by decide)).1 (by decide)

/-- C7: a de-escalating observation (severity strictly below the stored one)
is routed with the business flag forced off and the slack payload cleared,
so every attempted delivery goes to the developer sink only, whatever the
observation's own business flag and slack message were. -/
theorem deescalation_developer_only (policies : List (String × AlertPolicy))
    (states : AlertStates) (env : SendOutcome) (now : Int) (key : AlertKey)
    (sev : Severity) (value : ℚ) (summary details : String) (biz : Bool)
    (slack : String) (s : AlertState)
    (hs : findState states key = some s) (hsev : sev ≠ .ok)
    (hlt : severityLevel sev < severityLevel s.severity) :
    (evaluateObservation policies states now key sev value summary details biz slack).1.isBusinessAlert
        = false ∧
    (evaluateObservation policies states now key sev value summary details biz slack).1.slackMessage
        = "" ∧
    ∀ p ∈ (Observe policies states env now key sev value summary details biz slack).2.2,
      p.1 = Sink.developer := by
  have hsok : s.severity ≠ .ok := by
    intro hb
    rw [hb] at hlt
    exact Nat.not_lt_zero _ hlt
  have heval := @eval_deescalation policies states now key sev value summary details
    biz slack s hs hsev hsok hlt
  refine ⟨by rw [heval], by rw [heval], ?_⟩
  by_cases hdev : env.developerOK = true
  · have hobs := observe_eval_send heval rfl hdev
    rw [hobs]
    intro p hp
    have hps := List.mem_singleton.mp hp
    rw [hps]
  · have hdev' : env.developerOK = false := by
      cases hde : env.developerOK
      · rfl
      · exact absurd hde hdev
    have hobs := observe_eval_send_fail heval rfl hdev'
    rw [hobs]
    intro p hp
    have hps := List.mem_singleton.mp hp
    rw [hps]

/-- C7 witness: a Critical incident de-escalated to Warning with a business
flag and slack message set is routed with the business flag off and no slack
payload. -/
theorem deescalation_developer_only_witness :
    (evaluateObservation [] [(exKey, { exAlertState with severity := .critical })] 60 exKey
        .warning 1 "" "d" true "sl").1.isBusinessAlert = false ∧
    (evaluateObservation [] [(exKey, { exAlertState with severity := .critical })] 60 exKey
        .warning 1 "" "d" true "sl").1.slackMessage = "" :=
  ⟨(deescalation_developer_only [] [(exKey, { exAlertState with severity := .critical })] envAllOK
      60 exKey .warning 1 "" "d" true "sl" { exAlertState with severity := .critical }
      (by decide) (by decide) (by decide)).1,
   (deescalation_developer_only [] [(exKey, { exAlertState with severity := .critical })] envAllOK
      60 exKey .warning 1 "" "d" true "sl" { exAlertState with severity := .critical }
      (by decide) (by decide) (by decide)).2.1⟩

/-- On a list sorted by threshold descending, the first entry accepted by
the scan is a matching entry of maximal threshold; if the scan fails, no
entry matches. -/
theorem find_desc_cooldown (value : ℚ) :
    ∀ (l : List DynamicCooldown),
      l.Pairwise (fun a b => b.threshold ≤ a.threshold) →
      (∃ dc ∈ l, dc.threshold ≤ value ∧
         l.find? (fun dc => decide (dc.threshold ≤ value)) = some dc ∧
         ∀ dc' ∈ l, dc'.threshold ≤ value → dc'.threshold ≤ dc.threshold) ∨
      ((∀ dc ∈ l, ¬ dc.threshold ≤ value) ∧
       l.find? (fun dc => decide (dc.threshold ≤ value)) = none)
  | [], _ => Or.inr ⟨by simp, rfl⟩
  | a :: l, hp => by
      rcases List.pairwise_cons.mp hp with ⟨ha, hl⟩
      by_cases hav : a.threshold ≤ value
      · left
        refine ⟨a, List.mem_cons_self a l, hav, ?_, ?_⟩
        · simp [List.find?, hav]
        · intro dc' hdc' _
          rcases List.mem_cons.mp hdc' with h | hmem
          · rw [h]
          · exact ha dc' hmem
      · rcases find_desc_cooldown value l hl with ⟨dc, hmem, hdc, hfind, hmax⟩ | ⟨hnone, hfind⟩
        · left
          refine ⟨dc, List.mem_cons_of_mem a hmem, hdc, ?_, ?_⟩
          · simp [List.find?, hav, hfind]
          · intro dc' hdc' hle
            rcases List.mem_cons.mp hdc' with h | hmem'
            · exact absurd (h ▸ hle) hav
            · exact hmax dc' hmem' hle
        · right
          refine ⟨?_, by simp [List.find?, hav, hfind]⟩
          intro dc hdc
          rcases List.mem_cons.mp hdc with h | hmem
          · exact h ▸ hav
          · exact hnone dc hmem

unseal Rat.sub Rat.add Rat.mul Rat.inv Rat.ofScientific in
/-- C5: for a same-severity observation outside the reminder path, a send
happens exactly when both the cooldown gate and the min-change gate pass;
concretely, with `MinValueChange = 5` two Critical observations past cooldown
valued 100 then 102 produce one send in total while 100 then 110 produce two. -/
theorem same_severity_gate :
    (∀ (policies : List (String × AlertPolicy)) (states : AlertStates)
       (now : Int) (key : AlertKey) (sev : Severity) (value : ℚ)
       (summary details : String) (biz : Bool) (slack : String) (s : AlertState),
       findState states key = some s → s.severity = sev → sev ≠ .ok →
       ¬ reminderApplies (findPolicy policies key.job key.metric)
           { s with consecutiveOK := 0 } now sev →
       ((evaluateObservation policies states now key sev value summary details biz slack).1.shouldSend
           = true ↔
         (now - s.lastSent ≥ calculateCooldown (findPolicy policies key.job key.metric) sev value ∧
          percentChange s.lastValue value ≥ (findPolicy policies key.job key.metric).minValueChange))) ∧
    countSends gatePolicies [] [gateObs 0 100, gateObs 900 102] = 1 ∧
    countSends gatePolicies [] [gateObs 0 100, gateObs 900 110] = 2 := by
  refine ⟨?_, by decide, by decide⟩
  intro policies states now key sev value summary details biz slack s hs hss hsev hrem
  have hsok : s.severity ≠ .ok := by rw [hss]; exact hsev
  have heq : severityLevel sev = severityLevel s.severity := by rw [hss]
  by_cases hcd : now - s.lastSent < calculateCooldown (findPolicy policies key.job key.metric) sev value
  · have heval := @eval_cooldown_noop policies states now key sev value summary details
      biz slack s hs hsev hsok heq hrem hcd
    rw [heval]
    constructor
    · intro h
      exact Bool.noConfusion h
    · intro h
      exact absurd hcd (not_lt.mpr h.1)
  · by_cases hmc : percentChange s.lastValue value < (findPolicy policies key.job key.metric).minValueChange
    · have heval := @eval_minchange_noop policies states now key sev value summary details
        biz slack s hs hsev hsok heq hrem hcd hmc
      rw [heval]
      constructor
      · intro h
        exact Bool.noConfusion h
      · intro h
        exact absurd hmc (not_lt.mpr h.2)
    · have heval := @eval_update policies states now key sev value summary details
        biz slack s hs hsev hsok heq hrem hcd hmc
      rw [heval]
      constructor
      · intro _
        exact ⟨not_lt.mp hcd, not_lt.mp hmc⟩
      · intro _
        rfl

unseal Rat.sub Rat.add Rat.mul Rat.inv Rat.ofScientific in
/-- C5 witness: a Critical update 15 minutes after the last send with value
going from 100 to 110 (10% ≥ 5%) is sent. -/
theorem same_severity_gate_witness :
    (evaluateObservation gatePolicies
        [(exKey, { exAlertState with severity := .critical, lastValue := 100 })]
        900 exKey .critical 110 "" "d" false "").1.shouldSend = true :=
  (same_severity_gate.1 gatePolicies
      [(exKey, { exAlertState with severity := .critical, lastValue := 100 })]
      900 exKey .critical 110 "" "d" false ""
      { exAlertState with severity := .critical, lastValue := 100 }
      (by decide) (by decide) (by decide) (by decide)).mpr (by decide)

/-- C6: the cooldown for a same-severity observation comes from the matching
dynamic-cooldown pair of maximal threshold (the first match in the
descending-sorted scan), falling back to the per-severity default when no
pair matches; on `[(20, 10 s), (10, 30 s)]` with default 300 s, value 25
yields 10 s, value 15 yields 30 s and value 5 yields 300 s. -/
theorem dynamic_cooldown_spec :
    (∀ (policy : AlertPolicy) (sev : Severity) (value : ℚ),
       policy.dynamicCooldowns.Pairwise (fun a b => b.threshold ≤ a.threshold) →
       ((∃ dc ∈ policy.dynamicCooldowns, dc.threshold ≤ value ∧
           calculateCooldown policy sev value = dc.cooldown ∧
           ∀ dc' ∈ policy.dynamicCooldowns, dc'.threshold ≤ value →
             dc'.threshold ≤ dc.threshold) ∨
        ((∀ dc ∈ policy.dynamicCooldowns, ¬ dc.threshold ≤ value) ∧
         calculateCooldown policy sev value
           = (if sev = .critical then policy.cooldownCritical
              else policy.cooldownWarning)))) ∧
    calculateCooldown exCooldownPolicy .critical 25 = 10 ∧
    calculateCooldown exCooldownPolicy .critical 15 = 30 ∧
    calculateCooldown exCooldownPolicy .critical 5 = 300 := by
  refine ⟨?_, by decide, by decide, by decide⟩
  intro policy sev value hsorted
  rcases find_desc_cooldown value policy.dynamicCooldowns hsorted with
    ⟨dc, hmem, hdc, hfind, hmax⟩ | ⟨hnone, hfind⟩
  · left
    refine ⟨dc, hmem, hdc, ?_, hmax⟩
    unfold calculateCooldown
    rw [hfind]
  · right
    refine ⟨hnone, ?_⟩
    unfold calculateCooldown
    rw [hfind]

/-- C6 witness: the characterization applied to the example policy at value
25, whose sorted scan selects the `(20, 10 s)` pair. -/
theorem dynamic_cooldown_spec_witness :
    (∃ dc ∈ exCooldownPolicy.dynamicCooldowns, dc.threshold ≤ (25 : ℚ) ∧
        calculateCooldown exCooldownPolicy .critical 25 = dc.cooldown ∧
        ∀ dc' ∈ exCooldownPolicy.dynamicCooldowns, dc'.threshold ≤ (25 : ℚ) →
          dc'.threshold ≤ dc.threshold) ∨
    ((∀ dc ∈ exCooldownPolicy.dynamicCooldowns, ¬ dc.threshold ≤ (25 : ℚ)) ∧
     calculateCooldown exCooldownPolicy .critical 25
       = (if Severity.critical = .critical then exCooldownPolicy.cooldownCritical
          else exCooldownPolicy.cooldownWarning)) :=
  dynamic_cooldown_spec.1 exCooldownPolicy .critical 25 (by decide)

unseal Rat.sub Rat.add Rat.mul Rat.inv Rat.ofScientific in
/-- C1 counterexample: start from empty state, open a Warning incident, count
one OK reading, then observe Critical with a failing business sink. Observe
returns the failure, yet the stored ConsecutiveOK has been reset from 1 to 0,
so the state did not remain exactly as it was before the attempt. -/
theorem observe_failed_send_mutates_consecutiveOK :
    (findState exStates2 exKey).map AlertState.consecutiveOK = some 1 ∧
    (Observe [] exStates2 envBusinessFail 120 exKey .critical (23/10) "" "d3" true "s3").1 = false ∧
    (findState
        (Observe [] exStates2 envBusinessFail 120 exKey .critical (23/10) "" "d3" true "s3").2.1
        exKey).map AlertState.consecutiveOK = some 0 := by
  decide

/-- C1 amended: `Observe` returns a failure exactly when the decision asked
for a send and the primary sink of the chosen route rejected it; on failure
no entry is created or deleted, no other key is touched, and the stored entry
keeps every field except ConsecutiveOK, which has already been reset to 0 by
the decision procedure; any observation whose decision requires no send
returns success. -/
theorem observe_failure_semantics (policies : List (String × AlertPolicy))
    (states : AlertStates) (env : SendOutcome) (now : Int) (key : AlertKey)
    (sev : Severity) (value : ℚ) (summary details : String) (biz : Bool)
    (slack : String) :
    ((Observe policies states env now key sev value summary details biz slack).1 = false ↔
       ((evaluateObservation policies states now key sev value summary details biz slack).1.shouldSend = true ∧
        (if (evaluateObservation policies states now key sev value summary details biz slack).1.isBusinessAlert
         then env.businessOK else env.developerOK) = false)) ∧
    ((Observe policies states env now key sev value summary details biz slack).1 = false →
       (∀ k, k ≠ key →
          findState (Observe policies states env now key sev value summary details biz slack).2.1 k
            = findState states k) ∧
       findState (Observe policies states env now key sev value summary details biz slack).2.1 key
         = (findState states key).map (fun s => { s with consecutiveOK := 0 })) ∧
    ((evaluateObservation policies states now key sev value summary details biz slack).1.shouldSend = false →
       (Observe policies states env now key sev value summary details biz slack).1 = true) := by
  refine ⟨observe_fail_iff policies states env now key sev value summary details biz slack, ?_, ?_⟩
  · intro hfail
    have hst := observe_fail_states policies states env now key sev value summary details biz slack hfail
    have hsend := ((observe_fail_iff policies states env now key sev value summary
        details biz slack).mp hfail).1
    have hsev : sev ≠ .ok := by
      intro hb
      subst hb
      rw [evalObs_ok_noSend] at hsend
      exact Bool.noConfusion hsend
    refine ⟨fun k hk => observe_findState_ne policies states env now key sev value
      summary details biz slack k hk, ?_⟩
    rw [hst]
    rcases (evalObs_shape policies states now key sev value summary details biz slack).1 with
      ⟨heq, hnone⟩ | ⟨s, hfs, hok, _⟩ | ⟨s, hfs, _, heq⟩
    · rw [heq, hnone]
      rfl
    · exact absurd hok hsev
    · rw [heq, findState_setState_self, hfs]
      rfl
  · intro hns
    cases hO : (Observe policies states env now key sev value summary details biz slack).1
    · have hc := ((observe_fail_iff policies states env now key sev value summary
          details biz slack).mp hO).1
      rw [hns] at hc
      exact Bool.noConfusion hc
    · rfl

/-- C1 amended witness: a failing business send on an escalation leaves the
entry with only ConsecutiveOK reset. -/
theorem observe_failure_semantics_witness :
    findState (Observe [] exStates1 envBusinessFail 60 exKey .critical 7 "" "d" true "s").2.1 exKey
      = (findState exStates1 exKey).map (fun s => { s with consecutiveOK := 0 }) :=
  ((observe_failure_semantics [] exStates1 envBusinessFail 60 exKey .critical 7 "" "d" true "s").2.1
      (by decide)).2

unseal Rat.inv Rat.mul Rat.ofScientific in
/-- C3 counterexample: with the failure counter at 5 a tick with a 0% error
rate (well below 50%) is skipped and the counter stays at 5, so the counter
does not reset on the first tick whose error rate is ≤ 50%. -/
theorem circuit_breaker_latched_counterexample :
    runStep 5 { tokenCount := 10, errorCount := 0 } = (5, .skipped) ∧
    ((0 : ℚ) / 10 ≤ 1/2) ∧
    (runStep 5 { tokenCount := 10, errorCount := 0 }).1 ≠ 0 := by
  decide

/-- C3 amended: while the failure counter is ≥ 5 every run is skipped before
any token check and the counter is left unchanged — over any sequence of
ticks it stays put, so a counter that reaches 5 never returns to 0; below 5,
a tick over a non-empty token set resets the counter to 0 when the error
rate is ≤ 50% and increments it when the error rate exceeds 50%. -/
theorem circuit_breaker_semantics (f : Nat) (t : TickInput) :
    (5 ≤ f → runStep f t = (f, .skipped)) ∧
    (f < 5 → t.tokenCount ≠ 0 →
       (t.errorCount : ℚ) / (t.tokenCount : ℚ) ≤ 1/2 → runStep f t = (0, .healthy)) ∧
    (f < 5 → t.tokenCount ≠ 0 →
       (1 : ℚ)/2 < (t.errorCount : ℚ) / (t.tokenCount : ℚ) →
       runStep f t = (f + 1, .highErrorRate)) ∧
    (∀ ts, 5 ≤ f → runTicks f ts = f) := by
  refine ⟨?_, ?_, ?_, ?_⟩
  · intro h5
    unfold runStep
    rw [if_pos h5]
  · intro h5 htc hrate
    unfold runStep
    rw [if_neg (not_le.mpr h5), if_neg htc]
    dsimp only
    rw [if_neg (not_lt.mpr hrate)]
  · intro h5 htc hrate
    unfold runStep
    rw [if_neg (not_le.mpr h5), if_neg htc]
    dsimp only
    rw [if_pos hrate]
  · intro ts h5
    induction ts with
    | nil => rfl
    | cons t' rest ih =>
        have hskip : runStep f t' = (f, .skipped) := by
          unfold runStep
          rw [if_pos h5]
        show runTicks (runStep f t').1 rest = f
        rw [hskip]
        exact ih

/-- C3 amended witness: the skip clause applied at counter 5. -/
theorem circuit_breaker_semantics_witness :
    runStep 5 { tokenCount := 3, errorCount := 3 } = (5, .skipped) :=
  (circuit_breaker_semantics 5 { tokenCount := 3, errorCount := 3 }).1 (by decide)

/-- Summing a function over filtered elements equals summing the function
guarded by the predicate over all elements. -/
theorem sum_filter_decide (P : PositionRow → Prop) [DecidablePred P]
    (f : PositionRow → ℚ) :
    ∀ l : List PositionRow,
      ((l.filter (fun a => decide (P a))).map f).sum
        = (l.map (fun a => if P a then f a else 0)).sum
  | [] => rfl
  | a :: l => by
      by_cases hp : P a
      · simp [List.filter_cons, hp, sum_filter_decide P f l]
      · simp [List.filter_cons, hp, sum_filter_decide P f l]

/-- C9: the aggregate metrics computation returns the borrow-weighted average
health factor as the sum of `min(HF, 100) × total_borrowed` over the rows
with `0 < HF < 1000`, divided by the total borrowed over the same rows and
capped at 100; with no borrows the weighted average is 999. -/
theorem aggregate_weighted_hf_spec (rows : List PositionRow) :
    (getAggregateMetrics rows).totalBorrowUSD = specTotalBorrow rows ∧
    (0 < specTotalBorrow rows →
       (getAggregateMetrics rows).weightedAvgHF
         = min (specWeightedHFSum rows / specTotalBorrow rows) 100) ∧
    (specTotalBorrow rows = 0 → (getAggregateMetrics rows).weightedAvgHF = 999) := by
  have hb : ((rows.filter (fun r => decide (0 < r.healthFactor ∧ r.healthFactor < 1000))).map
        (fun r => r.totalBorrowed)).sum = specTotalBorrow rows :=
    sum_filter_decide (fun r => 0 < r.healthFactor ∧ r.healthFactor < 1000)
      (fun r => r.totalBorrowed) rows
  have hw : ((rows.filter (fun r => decide (0 < r.healthFactor ∧ r.healthFactor < 1000))).map
        (fun r => min r.healthFactor 100 * r.totalBorrowed)).sum = specWeightedHFSum rows :=
    sum_filter_decide (fun r => 0 < r.healthFactor ∧ r.healthFactor < 1000)
      (fun r => min r.healthFactor 100 * r.totalBorrowed) rows
  unfold getAggregateMetrics
  dsimp only
  rw [hb, hw]
  refine ⟨rfl, ?_, ?_⟩
  · intro hpos
    rw [if_pos hpos]
    rcases le_or_lt (specWeightedHFSum rows / specTotalBorrow rows) 100 with hle | hgt
    · rw [if_neg (not_lt.mpr hle), min_eq_left hle]
    · rw [if_pos hgt, min_eq_right hgt.le]
  · intro hzero
    rw [hzero]
    rw [if_neg (lt_irrefl 0)]

unseal Rat.sub Rat.add Rat.mul Rat.inv Rat.ofScientific in
/-- C9 witness: two concrete positions, one outside the HF window, yield the
capped borrow-weighted average. -/
theorem aggregate_weighted_hf_spec_witness :
    0 < specTotalBorrow
        [{ healthFactor := 2, totalSupplied := 10, totalBorrowed := 5 },
         { healthFactor := 2000, totalSupplied := 1, totalBorrowed := 7 }] ∧
    (getAggregateMetrics
        [{ healthFactor := 2, totalSupplied := 10, totalBorrowed := 5 },
         { healthFactor := 2000, totalSupplied := 1, totalBorrowed := 7 }]).weightedAvgHF
      = min (specWeightedHFSum
          [{ healthFactor := 2, totalSupplied := 10, totalBorrowed := 5 },
           { healthFactor := 2000, totalSupplied := 1, totalBorrowed := 7 }] / specTotalBorrow
          [{ healthFactor := 2, totalSupplied := 10, totalBorrowed := 5 },
           { healthFactor := 2000, totalSupplied := 1, totalBorrowed := 7 }]) 100 :=
  ⟨by decide,
   (aggregate_weighted_hf_spec
      [{ healthFactor := 2, totalSupplied := 10, totalBorrowed := 5 },
       { healthFactor := 2000, totalSupplied := 1, totalBorrowed := 7 }]).2.1 (by decide)⟩

/-- C10: when the filtered total borrow is zero, the borrow-concentration
check emits exactly one OK observation, keyed `borrow_top10`, and nothing for
any `borrow_single` key; feeding the emissions through the manager therefore
leaves the state of every `borrow_single` key untouched. -/
theorem zero_borrow_skips_single (rows : List (String × ℚ)) (h : borrowTotal rows = 0) :
    checkBorrowConcentration rows
      = [{ key := { job := "concentration", entity := "protocol", metric := "borrow_top10" }
           severity := .ok, value := 0, isBusinessAlert := false }] ∧
    (∀ e ∈ checkBorrowConcentration rows, e.key.metric ≠ "borrow_single") ∧
    ∀ (policies : List (String × AlertPolicy)) (env : SendOutcome) (now : Int)
      (det slk : Emission → String) (states : AlertStates) (k : AlertKey),
      k.metric = "borrow_single" →
      findState (runEmissions policies env now det slk states (checkBorrowConcentration rows)) k
        = findState states k := by
  have hcbc : checkBorrowConcentration rows
      = [{ key := { job := "concentration", entity := "protocol", metric := "borrow_top10" }
           severity := .ok, value := 0, isBusinessAlert := false }] := by
    unfold checkBorrowConcentration
    rw [h]
    rw [if_pos rfl]
  refine ⟨hcbc, ?_, ?_⟩
  · intro e he
    rw [hcbc] at he
    have he' := List.mem_singleton.mp he
    rw [he']
    decide
  · intro policies env now det slk states k hk
    rw [hcbc]
    have hkk : k ≠ { job := "concentration", entity := "protocol", metric := "borrow_top10" } := by
      intro heq
      rw [heq] at hk
      exact absurd hk (by decide)
    show findState (runEmissions policies env now det slk
        (Observe policies states env now
          { job := "concentration", entity := "protocol", metric := "borrow_top10" }
          .ok 0 "" (det _) false (slk _)).2.1 []) k = findState states k
    exact observe_findState_ne policies states env now _ .ok 0 "" (det _) false (slk _) k hkk

/-- C10 witness: with no positions at all the total borrow is zero and only
the top-10 OK observation is emitted. -/
theorem zero_borrow_skips_single_witness :
    checkBorrowConcentration []
      = [{ key := { job := "concentration", entity := "protocol", metric := "borrow_top10" }
           severity := .ok, value := 0, isBusinessAlert := false }] :=
  (zero_borrow_skips_single [] rfl).1

/-- The map left by the decision procedure holds, at the observed key,
either the untouched previous binding or the stored entry with only its
ConsecutiveOK counter rewritten. -/
theorem evalObs_states_key (policies : List (String × AlertPolicy))
    (states : AlertStates) (now : Int) (key : AlertKey) (sev : Severity)
    (value : ℚ) (summary details : String) (biz : Bool) (slack : String) :
    findState (evaluateObservation policies states now key sev value summary details biz slack).2 key
      = findState states key ∨
    (∃ s c, findState states key = some s ∧
       findState (evaluateObservation policies states now key sev value summary details biz slack).2 key
         = some { s with consecutiveOK := c }) := by
  rcases (evalObs_shape policies states now key sev value summary details biz slack).1 with
    ⟨heq, _⟩ | ⟨s, hfs, _, heq⟩ | ⟨s, hfs, _, heq⟩
  · exact Or.inl (by rw [heq])
  · exact Or.inr ⟨s, _, hfs, by rw [heq, findState_setState_self]⟩
  · exact Or.inr ⟨s, _, hfs, by rw [heq, findState_setState_self]⟩

/-- After a whole `Observe` call, the binding at the observed key is: the
previous binding, absent, the previous entry with a rewritten ConsecutiveOK,
a fresh entry timed entirely at `now`, or an entry timed at `now` that keeps
the previous entry's FirstTriggered. -/
theorem observe_key_char (policies : List (String × AlertPolicy))
    (states : AlertStates) (env : SendOutcome) (now : Int) (key : AlertKey)
    (sev : Severity) (value : ℚ) (summary details : String) (biz : Bool)
    (slack : String) :
    findState (Observe policies states env now key sev value summary details biz slack).2.1 key
      = findState states key ∨
    findState (Observe policies states env now key sev value summary details biz slack).2.1 key
      = none ∨
    (∃ s c, findState states key = some s ∧
       findState (Observe policies states env now key sev value summary details biz slack).2.1 key
         = some { s with consecutiveOK := c }) ∨
    (∃ m, findState (Observe policies states env now key sev value summary details biz slack).2.1 key
       = some { severity := sev, lastSent := now, firstTriggered := now
                lastValue := value, lastMessage := m, consecutiveOK := 0 }) ∨
    (∃ m s, findState states key = some s ∧
       findState (Observe policies states env now key sev value summary details biz slack).2.1 key
         = some { severity := sev, lastSent := now, firstTriggered := s.firstTriggered
                  lastValue := value, lastMessage := m, consecutiveOK := 0 }) := by
  rcases observe_states_shape policies states env now key sev value summary details biz slack with
    hsh | hsh
  · rcases evalObs_states_key policies states now key sev value summary details biz slack with
      he | ⟨s, c, hfs, he⟩
    · exact Or.inl (by rw [hsh, he])
    · exact Or.inr (Or.inr (Or.inl ⟨s, c, hfs, by rw [hsh, he]⟩))
  · by_cases hdel :
      (evaluateObservation policies states now key sev value summary details biz slack).1.deleteState = true
    · refine Or.inr (Or.inl ?_)
      rw [hsh]
      unfold applyStateUpdate
      rw [if_pos hdel]
      exact findState_delState_self _ _
    · cases hns :
        (evaluateObservation policies states now key sev value summary details biz slack).1.newState with
      | none =>
          have happ :
              applyStateUpdate
                (evaluateObservation policies states now key sev value summary details biz slack).2 key
                (evaluateObservation policies states now key sev value summary details biz slack).1
              = (evaluateObservation policies states now key sev value summary details biz slack).2 := by
            unfold applyStateUpdate
            rw [if_neg hdel, hns]
          rcases evalObs_states_key policies states now key sev value summary details biz slack with
            he | ⟨s, c, hfs, he⟩
          · exact Or.inl (by rw [hsh, happ, he])
          · exact Or.inr (Or.inr (Or.inl ⟨s, c, hfs, by rw [hsh, happ, he]⟩))
      | some ns =>
          have hafter :
              findState (Observe policies states env now key sev value summary details biz slack).2.1 key
                = some ns := by
            rw [hsh]
            unfold applyStateUpdate
            rw [if_neg hdel, hns]
            exact findState_setState_self _ _ _
          rcases (evalObs_shape policies states now key sev value summary details biz slack).2 with
            hn | ⟨m, hm⟩ | ⟨m, s, hfs, hm⟩
          · rw [hns] at hn
            exact Option.noConfusion hn
          · rw [hns] at hm
            injection hm with hm'
            exact Or.inr (Or.inr (Or.inr (Or.inl ⟨m, by rw [hafter, hm']⟩)))
          · rw [hns] at hm
            injection hm with hm'
            exact Or.inr (Or.inr (Or.inr (Or.inr ⟨m, s, hfs, by rw [hafter, hm']⟩)))

/-- One `Observe` step preserves the time invariant when the clock moved
forward, never decreases a key's LastSent, and stamps any entry it creates
from nothing with a LastSent of at least `now`. -/
theorem observe_step_inv (policies : List (String × AlertPolicy))
    (states : AlertStates) (env : SendOutcome) (now : Int) (key : AlertKey)
    (sev : Severity) (value : ℚ) (summary details : String) (biz : Bool)
    (slack : String) (t : Int)
    (hinv : StatesInv t states) (ht : t ≤ now) :
    StatesInv now (Observe policies states env now key sev value summary details biz slack).2.1 ∧
    (∀ k s s1, findState states k = some s →
       findState (Observe policies states env now key sev value summary details biz slack).2.1 k
         = some s1 → s.lastSent ≤ s1.lastSent) ∧
    (∀ k s1, findState states k = none →
       findState (Observe policies states env now key sev value summary details biz slack).2.1 k
         = some s1 → now ≤ s1.lastSent) := by
  have hchar := observe_key_char policies states env now key sev value summary details biz slack
  refine ⟨?_, ?_, ?_⟩
  · intro k s1 h1
    by_cases hk : k = key
    · subst hk
      rcases hchar with he | he | ⟨s, c, hfs, he⟩ | ⟨m, he⟩ | ⟨m, s, hfs, he⟩
      · rw [he] at h1
        rcases hinv k s1 h1 with ⟨h2, h3⟩
        exact ⟨h2, le_trans h3 ht⟩
      · rw [he] at h1
        exact Option.noConfusion h1
      · rw [he] at h1
        injection h1 with h1'
        rw [← h1']
        rcases hinv k s hfs with ⟨h2, h3⟩
        exact ⟨h2, le_trans h3 ht⟩
      · rw [he] at h1
        injection h1 with h1'
        rw [← h1']
        exact ⟨le_refl now, le_refl now⟩
      · rw [he] at h1
        injection h1 with h1'
        rw [← h1']
        rcases hinv k s hfs with ⟨h2, h3⟩
        exact ⟨le_trans h2 (le_trans h3 ht), le_refl now⟩
    · rw [observe_findState_ne policies states env now key sev value summary details biz slack k hk] at h1
      rcases hinv k s1 h1 with ⟨h2, h3⟩
      exact ⟨h2, le_trans h3 ht⟩
  · intro k s s1 hs h1
    by_cases hk : k = key
    · subst hk
      rcases hchar with he | he | ⟨s', c, hfs, he⟩ | ⟨m, he⟩ | ⟨m, s', hfs, he⟩
      · rw [he, hs] at h1
        injection h1 with h1'
        rw [h1']
      · rw [he] at h1
        exact Option.noConfusion h1
      · rw [hs] at hfs
        injection hfs with hfs'
        subst hfs'
        rw [he] at h1
        injection h1 with h1'
        rw [← h1']
      · rw [he] at h1
        injection h1 with h1'
        rw [← h1']
        exact le_trans (hinv k s hs).2 ht
      · rw [he] at h1
        injection h1 with h1'
        rw [← h1']
        exact le_trans (hinv k s hs).2 ht
    · rw [observe_findState_ne policies states env now key sev value summary details biz slack k hk, hs] at h1
      injection h1 with h1'
      rw [h1']
  · intro k s1 hnone h1
    by_cases hk : k = key
    · subst hk
      rcases hchar with he | he | ⟨s', c, hfs, he⟩ | ⟨m, he⟩ | ⟨m, s', hfs, he⟩
      · rw [he, hnone] at h1
        exact Option.noConfusion h1
      · rw [he] at h1
        exact Option.noConfusion h1
      · rw [hnone] at hfs
        exact Option.noConfusion hfs
      · rw [he] at h1
        injection h1 with h1'
        rw [← h1']
      · rw [hnone] at hfs
        exact Option.noConfusion hfs
    · rw [observe_findState_ne policies states env now key sev value summary details biz slack k hk, hnone] at h1
      exact Option.noConfusion h1

/-- Chains of weakly increasing instants restrict to the left part of an
append. -/
theorem chain_le_append_left (t : Int) : ∀ (l1 l2 : List Int),
    List.Chain (fun a b => a ≤ b) t (l1 ++ l2) →
    List.Chain (fun a b => a ≤ b) t l1
  | [], _, _ => List.Chain.nil
  | a :: l1, l2, h =>
      List.Chain.cons (List.chain_cons.mp h).1
        (chain_le_append_left a l1 l2 (List.chain_cons.mp h).2)

/-- The right part of an appended chain is a chain from the last instant of
the left part. -/
theorem chain_lastTime (t : Int) : ∀ (l1 l2 : List Int),
    List.Chain (fun a b => a ≤ b) t (l1 ++ l2) →
    List.Chain (fun a b => a ≤ b) (lastTime t l1) l2
  | [], _, h => h
  | a :: l1, l2, h => chain_lastTime a l1 l2 (List.chain_cons.mp h).2

/-- Running an appended trace runs the parts in order. -/
theorem runTrace_append (policies : List (String × AlertPolicy)) :
    ∀ (l1 l2 : List ObsInput) (states : AlertStates),
      runTrace policies states (l1 ++ l2)
        = runTrace policies (runTrace policies states l1) l2
  | [], _, _ => rfl
  | _ :: l1, l2, _ => runTrace_append policies l1 l2 _

/-- Over a monotone trace, the invariant is preserved to the last instant
and every surviving entry's LastSent dominates both its earlier LastSent and
the start instant when the key was initially absent. -/
theorem runTrace_inv (policies : List (String × AlertPolicy)) :
    ∀ (trace : List ObsInput) (t : Int) (states : AlertStates),
      StatesInv t states →
      List.Chain (fun a b => a ≤ b) t (trace.map ObsInput.time) →
      StatesInv (lastTime t (trace.map ObsInput.time)) (runTrace policies states trace) ∧
      (∀ k s', findState (runTrace policies states trace) k = some s' →
        (∀ s, findState states k = some s → s.lastSent ≤ s'.lastSent) ∧
        (findState states k = none → t ≤ s'.lastSent))
  | [], t, states, hinv, _ => by
      refine ⟨hinv, fun k s' h' => ?_⟩
      have hsame : findState states k = some s' := h'
      refine ⟨fun s h => ?_, fun hnone => ?_⟩
      · rw [h] at hsame
        injection hsame with hh
        rw [hh]
      · rw [hnone] at hsame
        exact Option.noConfusion hsame
  | o :: rest, t, states, hinv, hchain => by
      have hto : t ≤ o.time := (List.chain_cons.mp hchain).1
      have hchain' : List.Chain (fun a b => a ≤ b) o.time (rest.map ObsInput.time) :=
        (List.chain_cons.mp hchain).2
      have hstep := observe_step_inv policies states o.env o.time o.key o.severity o.value
        o.summary o.details o.isBusinessAlert o.slackMessage t hinv hto
      have hIH := runTrace_inv policies rest o.time
        (Observe policies states o.env o.time o.key o.severity o.value
          o.summary o.details o.isBusinessAlert o.slackMessage).2.1 hstep.1 hchain'
      refine ⟨hIH.1, ?_⟩
      intro k s' h'
      have hIH2 := hIH.2 k s' h'
      constructor
      · intro s hs
        rcases hf1 : findState (Observe policies states o.env o.time o.key o.severity o.value
            o.summary o.details o.isBusinessAlert o.slackMessage).2.1 k with _ | s1
        · exact le_trans (le_trans (hinv k s hs).2 hto) (hIH2.2 hf1)
        · exact le_trans (hstep.2.1 k s s1 hs hf1) (hIH2.1 s1 hf1)
      · intro hnone
        rcases hf1 : findState (Observe policies states o.env o.time o.key o.severity o.value
            o.summary o.details o.isBusinessAlert o.slackMessage).2.1 k with _ | s1
        · exact le_trans hto (hIH2.2 hf1)
        · exact le_trans hto (le_trans (hstep.2.2 k s1 hnone hf1) (hIH2.1 s1 hf1))

/-- C8: starting from the empty state map and feeding any sequence of
observations whose clock readings never decrease, every stored state
satisfies FirstTriggered ≤ LastSent, and the LastSent recorded for a key
after a prefix of the trace never exceeds the LastSent recorded for the same
key after the whole trace. -/
theorem alert_state_time_invariants (policies : List (String × AlertPolicy))
    (pre suf : List ObsInput) (t0 : Int)
    (hchain : List.Chain (fun a b => a ≤ b) t0 ((pre ++ suf).map ObsInput.time)) :
    (∀ k s, findState (runTrace policies [] (pre ++ suf)) k = some s →
       s.firstTriggered ≤ s.lastSent) ∧
    (∀ k s s', findState (runTrace policies [] pre) k = some s →
       findState (runTrace policies [] (pre ++ suf)) k = some s' →
       s.lastSent ≤ s'.lastSent) := by
  have hinv0 : StatesInv t0 ([] : AlertStates) := fun k s h => Option.noConfusion h
  constructor
  · intro k s h
    exact ((runTrace_inv policies (pre ++ suf) t0 [] hinv0 hchain).1 k s h).1
  · intro k s s' hs hs'
    rw [runTrace_append policies pre suf []] at hs'
    have hmap : (pre ++ suf).map ObsInput.time
        = pre.map ObsInput.time ++ suf.map ObsInput.time := List.map_append _ _ _
    rw [hmap] at hchain
    have hchain_pre := chain_le_append_left t0 _ _ hchain
    have hinv_pre := (runTrace_inv policies pre t0 [] hinv0 hchain_pre).1
    have hchain_suf := chain_lastTime t0 _ _ hchain
    exact ((runTrace_inv policies suf (lastTime t0 (pre.map ObsInput.time))
        (runTrace policies [] pre) hinv_pre hchain_suf).2 k s' hs').1 s hs

/-- C8 witness: a two-observation trace (Warning then OK, 60 s apart) from
the empty map satisfies both time invariants. -/
theorem alert_state_time_invariants_witness :
    (∀ k s, findState (runTrace [] [] ([exObs1] ++ [exObs2])) k = some s →
       s.firstTriggered ≤ s.lastSent) ∧
    (∀ k s s', findState (runTrace [] [] [exObs1]) k = some s →
       findState (runTrace [] [] ([exObs1] ++ [exObs2])) k = some s' →
       s.lastSent ≤ s'.lastSent) :=
  alert_state_time_invariants [] [exObs1] [exObs2] 0
    (List.Chain.cons (by decide) (List.Chain.cons (by decide) List.Chain.nil))

end OracleRepo
